import Mathlib

/-!
Verification development for the maelstrom-rust node programs.

This file gives a shallow embedding, in Lean, of the core of the broadcast
node: the wire model (src/src/protocol.rs), the dispatch loop and output
serializer (src/src/server.rs), and the gossip engine with its handlers
(src/src/broadcast.rs).  Pure data and constructors are translated directly;
stateful Rust code is translated as explicit state passing; Rust panics
(Option::unwrap / expect on None) are modelled as an Option-valued result
being none, or as an explicit crash outcome.  HashSet values are modelled as
lists with insert-if-absent (iteration order is irrelevant to every statement
below); monotonic instants are modelled as natural numbers of milliseconds.
-/

namespace Maelstrom

/-- Message types, from the MessageType enum in src/src/protocol.rs. -/
inductive MessageType where
  | init
  | init_ok
  | error
  | echo
  | echo_ok
  | broadcast
  | broadcast_ok
  | topology
  | topology_ok
  | read
  | read_ok
deriving DecidableEq

/-- The serde name of each message type variant (the field is renamed to
type on the wire). -/
def messageTypeName : MessageType → String
  | .init => "init"
  | .init_ok => "init_ok"
  | .error => "error"
  | .echo => "echo"
  | .echo_ok => "echo_ok"
  | .broadcast => "broadcast"
  | .broadcast_ok => "broadcast_ok"
  | .topology => "topology"
  | .topology_ok => "topology_ok"
  | .read => "read"
  | .read_ok => "read_ok"

/-- MessageBody from src/src/protocol.rs.  Opaque RawValue payloads are kept
as their raw JSON text, exactly as the Rust code itself stores them (it calls
to_string on the RawValue before persisting).  The topology HashMap is an
association list. -/
structure MessageBody where
  message_type : MessageType
  msg_id : Option Nat
  in_reply_to : Option Nat
  node_id : Option String
  node_ids : Option (List String)
  echo : Option String
  code : Option Nat
  text : Option String
  topology : Option (List (String × List String))
  message : Option String
  messages : Option (List String)
deriving DecidableEq

/-- Message from src/src/protocol.rs. -/
structure Message where
  src : String
  dest : String
  body : MessageBody
deriving DecidableEq

/-- The PartialEq implementation for MessageBody in src/src/protocol.rs
lines 74 to 80: it compares only message_type, msg_id and in_reply_to. -/
def MessageBody.eqImpl (a b : MessageBody) : Bool :=
  decide (a.message_type = b.message_type)
    && decide (a.msg_id = b.msg_id)
    && decide (a.in_reply_to = b.in_reply_to)

/-- Message::init_ok from src/src/protocol.rs lines 109 to 127. -/
def Message.init_ok (source destination : String) (messageId inReplyTo : Nat) : Message :=
  { src := source
    dest := destination
    body :=
      { message_type := .init_ok
        msg_id := some messageId
        in_reply_to := some inReplyTo
        node_id := none
        node_ids := none
        echo := none
        code := none
        text := none
        topology := none
        message := none
        messages := none } }

/-- Message::error from src/src/protocol.rs lines 129 to 153.  Note that it
omits msg_id and always sets in_reply_to, code and text. -/
def Message.error (source destination : String) (inReplyTo : Nat) (code : Nat)
    (text : String) : Message :=
  { src := source
    dest := destination
    body :=
      { message_type := .error
        msg_id := none
        in_reply_to := some inReplyTo
        node_id := none
        node_ids := none
        echo := none
        code := some code
        text := some text
        topology := none
        message := none
        messages := none } }

/-- The JSON values that serializing a MessageBody can place in a field.
The null constructor represents the JSON literal null; raw holds an opaque
RawValue sub-document emitted verbatim. -/
inductive JsonValue where
  | null
  | nat (n : Nat)
  | str (s : String)
  | strList (xs : List String)
  | raw (text : String)
  | rawList (xs : List String)
  | topo (t : List (String × List String))
deriving DecidableEq

/-- Whether a serialized field value is the JSON value null on the wire:
either the literal null, or an opaque raw sub-document whose text is the JSON
document null (RawValue is emitted verbatim). -/
def JsonValue.wireNull : JsonValue → Bool
  | .null => true
  | .raw text => decide (text = "null")
  | _ => false

/-- One optional field under serde skip_serializing_none semantics: a some
value is emitted, a none value contributes no field at all. -/
def optField {α : Type} (name : String) (value : Option α) (enc : α → JsonValue) :
    List (String × JsonValue) :=
  match value with
  | none => []
  | some x => [(name, enc x)]

/-- Serialization of MessageBody, following the serde derive on the struct in
src/src/protocol.rs lines 29 to 72: the skip_serializing_none attribute
omits every unset optional field, message_type is renamed to type, and fields
appear in declaration order. -/
def serializeMessageBody (b : MessageBody) : List (String × JsonValue) :=
  [("type", JsonValue.str (messageTypeName b.message_type))]
    ++ optField "msg_id" b.msg_id JsonValue.nat
    ++ optField "in_reply_to" b.in_reply_to JsonValue.nat
    ++ optField "node_id" b.node_id JsonValue.str
    ++ optField "node_ids" b.node_ids JsonValue.strList
    ++ optField "echo" b.echo JsonValue.str
    ++ optField "code" b.code JsonValue.nat
    ++ optField "text" b.text JsonValue.str
    ++ optField "topology" b.topology JsonValue.topo
    ++ optField "message" b.message JsonValue.raw
    ++ optField "messages" b.messages JsonValue.rawList

/-- The field names present in a serialized body. -/
def serializedKeys (b : MessageBody) : List String :=
  (serializeMessageBody b).map Prod.fst

/-- Modelled from the spec: the serde-generated Deserialize impl for
MessageBody is wire-binding code that is not under src/ (the spec scopes
the JSON bindings out as external, fixing only the field semantics).  serde
deserializes an optional field whose JSON value is null as an unset field
(None), never as a RawValue holding the text null, so every body the parse
layer hands to the node satisfies this predicate: its opaque raw payload
fields are never the JSON document null. -/
def payloadsNotNull (b : MessageBody) : Prop :=
  (∀ s, b.message = some s → s ≠ "null")
    ∧ (∀ xs, b.messages = some xs → ∀ s ∈ xs, s ≠ "null")

/-- AppError from the node crate (the enum is declared in src/src/node.rs). -/
inductive AppError where
  | MissingField (path : String)
  | AlreadyInitialised
deriving DecidableEq

/-- Modelled from the spec: the body of AppError::to_message is not under
src/ (server.rs and broadcast.rs call it, but only the AppError enum itself
is present).  Spec section 4.1 fixes the taxonomy: MissingField carries
numeric code 12 and AlreadyInitialised carries numeric code 22, surfaced as
an error message referencing the request via in_reply_to, built with the
Message::error constructor (which is in src/src/protocol.rs).  The texts
follow the identical match in Server::send_result in src/src/node.rs. -/
def AppError.toMessage (e : AppError) (source destination : String) (inReplyTo : Nat) :
    Message :=
  match e with
  | .MissingField path =>
      Message.error source destination inReplyTo 12 ("Missing field: " ++ path)
  | .AlreadyInitialised =>
      Message.error source destination inReplyTo 22 "Node was already initialised"

/-- The node state used by Server::run in src/src/server.rs lines 172 to 176:
an identifier, the peer list, and the message-id counter (an AtomicUsize
starting at 0). -/
structure Node where
  node_id : String
  node_ids : List String
  next_message_id : Nat
deriving DecidableEq

/-- Node::get_and_increment_message_id (src/src/node.rs): fetch_add returning
the previous counter value. -/
def Node.getAndIncrementMessageId (node : Node) : Nat × Node :=
  (node.next_message_id, { node with next_message_id := node.next_message_id + 1 })

/-- What one iteration of the Phase A (initialization) loop of Server::run
does with a parsed line: skip means the loop logs and continues with the next
line; crash means the process panics; advance means the loop breaks into
Phase B carrying the written node state, after queueing one response. -/
inductive PhaseAOutcome where
  | skip
  | crash
  | advance (node : Node) (response : Message)
deriving DecidableEq

/-- One iteration of the initialization loop of Server::run,
src/src/server.rs lines 186 to 241, applied to a successfully parsed
message.  Lines without a msg_id and lines that are not of type init are
skipped.  For an init message the code first records a MissingField error in
result when node_id or node_ids is absent, but then unconditionally calls
Option::unwrap on both fields (lines 225 and 226), so a missing field
panics before the recorded error can be sent; the error branch on lines 227
and 228 is kept here as the code keeps it, although it is unreachable.  In
every non-panicking case the loop breaks (advances to Phase B). -/
def phaseAStep (node : Node) (request : Message) : PhaseAOutcome :=
  match request.body.msg_id with
  | none => .skip
  | some requestId =>
    if request.body.message_type ≠ MessageType.init then .skip
    else
      let result : Option AppError :=
        if request.body.node_id = none then some (.MissingField "body.node_id")
        else if request.body.node_ids = none then some (.MissingField "body.node_ids")
        else none
      match request.body.node_id with
      | none => .crash
      | some nid =>
        match request.body.node_ids with
        | none => .crash
        | some nids =>
          let node1 : Node := { node with node_id := nid, node_ids := nids }
          match result with
          | some err => .advance node1 (err.toMessage node1.node_id request.src requestId)
          | none =>
            let allocated := node1.getAndIncrementMessageId
            .advance allocated.2
              (Message.init_ok node1.node_id request.src allocated.1 requestId)

/-- The manually constructed code-13 error line of
Server::spawn_message_receiver, src/src/server.rs lines 298 to 302. -/
def fallbackErrorLine (source destination : String) (inReplyTo : Nat) : String :=
  "\x7b\"src\":\"" ++ source ++ "\",\"dest\":\"" ++ destination
    ++ "\",\"body\":\x7b\"type\":\"error\",\"in_reply_to\":" ++ toString inReplyTo
    ++ ",\"code\":13,\"text\":\"Unable to serialise response\"\x7d\x7d"

/-- The per-message body of the output serializer loop in
Server::spawn_message_receiver, src/src/server.rs lines 287 to 308.  The
encoding attempt is passed in as encoded (some line on success, none on a
serde failure).  On failure the code builds the fallback error line, calling
expect on message.body.in_reply_to; when that field is absent the thread
panics, modelled as none. -/
def emitOutput (message : Message) (encoded : Option String) : Option String :=
  match encoded with
  | some line => some line
  | none =>
    match message.body.in_reply_to with
    | some r => some (fallbackErrorLine message.src message.dest r)
    | none => none

/-- Set insertion on the list model of a HashSet. -/
def listInsert {α : Type} [DecidableEq α] (x : α) (l : List α) : List α :=
  if x ∈ l then l else x :: l

/-- BroadcastServer from src/src/broadcast.rs lines 20 to 25: the neighbour
list, the set of seen raw payload texts, and the set of acknowledged
outbound msg_id values. -/
structure BroadcastServer where
  neighbours : List String
  messages : List String
  acknowledged_broadcasts : List Nat
deriving DecidableEq

/-- Broadcast from src/src/broadcast.rs lines 324 to 327: a destination node
and the raw payload text. -/
structure Broadcast where
  node : String
  message : String
deriving DecidableEq

/-- PendingBroadcast from src/src/broadcast.rs lines 329 to 332. -/
structure PendingBroadcast where
  broadcast : Message
  attempts : Nat
deriving DecidableEq

/-- Broadcast::to_message, src/src/broadcast.rs lines 334 to 357: builds the
outbound broadcast message with a freshly allocated msg_id, in_reply_to
unset, and the opaque payload re-emitted verbatim; returns the message
together with the node whose counter advanced. -/
def Broadcast.toMessage (b : Broadcast) (node : Node) : Message × Node :=
  let allocated := node.getAndIncrementMessageId
  ({ src := node.node_id
     dest := b.node
     body :=
       { message_type := .broadcast
         msg_id := some allocated.1
         in_reply_to := none
         node_id := none
         node_ids := none
         echo := none
         code := none
         text := none
         topology := none
         message := some b.message
         messages := none } },
   allocated.2)

/-- The broadcast_ok acknowledgement literal built by
BroadcastHandler::handle_request, src/src/broadcast.rs lines 203 to 219. -/
def broadcastOkMessage (source destination : String) (messageId inReplyTo : Nat) : Message :=
  { src := source
    dest := destination
    body :=
      { message_type := .broadcast_ok
        msg_id := some messageId
        in_reply_to := some inReplyTo
        node_id := none
        node_ids := none
        echo := none
        code := none
        text := none
        topology := none
        message := none
        messages := none } }

/-- The topology_ok reply literal built by TopologyOk::to_messages,
src/src/broadcast.rs lines 56 to 76. -/
def topologyOkMessage (source destination : String) (messageId inReplyTo : Nat) : Message :=
  { src := source
    dest := destination
    body :=
      { message_type := .topology_ok
        msg_id := some messageId
        in_reply_to := some inReplyTo
        node_id := none
        node_ids := none
        echo := none
        code := none
        text := none
        topology := none
        message := none
        messages := none } }

/-- The read_ok reply literal built by ReadOk::to_messages,
src/src/broadcast.rs lines 379 to 407: the seen payloads are re-emitted as
raw JSON sub-documents. -/
def readOkMessage (source destination : String) (messageId inReplyTo : Nat)
    (msgs : List String) : Message :=
  { src := source
    dest := destination
    body :=
      { message_type := .read_ok
        msg_id := some messageId
        in_reply_to := some inReplyTo
        node_id := none
        node_ids := none
        echo := none
        code := none
        text := none
        topology := none
        message := none
        messages := some msgs } }

/-- The time-bucketed pending map, BTreeMap of Instant to Vec of
PendingBroadcast, as an association list keyed by milliseconds.  Only
per-key bucket contents matter to the statements below. -/
abbrev PendingMap := List (Nat × List PendingBroadcast)

/-- The bucket stored at instant t (empty when the key is absent). -/
def pendingAt (t : Nat) : PendingMap → List PendingBroadcast
  | [] => []
  | (k, bucket) :: rest => if k = t then bucket else pendingAt t rest

/-- BTreeMap entry(t).or_default().push(e): append e to the bucket at key t,
creating the bucket when absent (src/src/broadcast.rs lines 307 to 313). -/
def entryPush (t : Nat) (e : PendingBroadcast) : PendingMap → PendingMap
  | [] => [(t, [e])]
  | (k, bucket) :: rest =>
    if k = t then (k, bucket ++ [e]) :: rest else (k, bucket) :: entryPush t e rest

/-- Queueing a list of outbound broadcast messages: one gossip call per
message, each inserting a pending entry with attempts 0 at the current
instant (BroadcastHandler::gossip, src/src/broadcast.rs lines 300 to 321). -/
def pushAll (now : Nat) (msgs : List Message) (pending : PendingMap) : PendingMap :=
  msgs.foldl (fun acc m => entryPush now { broadcast := m, attempts := 0 } acc) pending

/-- The neighbour fan-out of BroadcastHandler::handle_request,
src/src/broadcast.rs lines 241 to 250: one Broadcast::to_message per (already
filtered) neighbour, threading the node counter left to right. -/
def gossipMessages (neighbours : List String) (payload : String) (node : Node) :
    Node × List Message :=
  match neighbours with
  | [] => (node, [])
  | neighbour :: rest =>
    let built := Broadcast.toMessage { node := neighbour, message := payload } node
    let remaining := gossipMessages rest payload built.2
    (remaining.1, built.1 :: remaining.2)

/-- BroadcastHandler::handle_request, src/src/broadcast.rs lines 191 to 254.
The result is none when the expect on the request msg_id panics.  Otherwise
it returns the updated broadcast server, pending map and node, together with
the messages pushed onto the response channel, in order.  Per the source: a
missing payload yields a MissingField reply; the acknowledgement allocates
its msg_id before the seen-set test; an already seen payload returns only the
acknowledgement; a new payload is inserted, fanned out to every neighbour
other than the caller through gossip (queueing each outbound message at the
current instant with attempts 0), and then the acknowledgement is sent. -/
def broadcastHandleRequest (server : BroadcastServer) (pending : PendingMap)
    (node : Node) (now : Nat) (request : Message) :
    Option (BroadcastServer × PendingMap × Node × List Message) :=
  match request.body.msg_id with
  | none => none
  | some inReplyTo =>
    match request.body.message with
    | none =>
      some (server, pending, node,
        [AppError.toMessage (.MissingField "body.message") node.node_id request.src inReplyTo])
    | some payload =>
      let allocated := node.getAndIncrementMessageId
      let acknowledgement :=
        broadcastOkMessage node.node_id request.src allocated.1 inReplyTo
      if payload ∈ server.messages then
        some (server, pending, allocated.2, [acknowledgement])
      else
        let server1 := { server with messages := listInsert payload server.messages }
        let fanned :=
          gossipMessages (server1.neighbours.filter (fun n => n ≠ request.src))
            payload allocated.2
        some (server1, pushAll now fanned.2 pending, fanned.1, [acknowledgement])

/-- BroadcastAcknowledgementHandler::handle_request, src/src/broadcast.rs
lines 416 to 425: insert the in_reply_to of the incoming broadcast_ok into
the acknowledged set; no message is produced.  The unwrap on in_reply_to
panics when the field is absent, modelled as none. -/
def ackHandleRequest (server : BroadcastServer) (request : Message) :
    Option (BroadcastServer × List Message) :=
  match request.body.in_reply_to with
  | none => none
  | some r =>
    some ({ server with acknowledged_broadcasts := listInsert r server.acknowledged_broadcasts },
      [])

/-- Association-list lookup for the topology map. -/
def lookupTopo (topo : List (String × List String)) (key : String) : Option (List String) :=
  match topo with
  | [] => none
  | (k, v) :: rest => if k = key then some v else lookupTopo rest key

/-- TopologyHandler::handle_request, src/src/broadcast.rs lines 31 to 52:
require body.topology, then replace the neighbour list with the entry for
this node (empty when absent). -/
def topologyHandle (server : BroadcastServer) (node : Node) (request : Message) :
    Except AppError BroadcastServer :=
  match request.body.topology with
  | none => .error (.MissingField "body.topology")
  | some topo =>
    .ok { server with neighbours := (lookupTopo topo node.node_id).getD [] }

/-- The full mutable state reachable from Phase B of the broadcast binary. -/
structure SystemState where
  node : Node
  server : BroadcastServer
  pending : PendingMap
deriving DecidableEq

/-- Server::process_line (src/src/server.rs lines 312 to 355) together with
the handler table installed by the broadcast binary main
(src/src/broadcast.rs lines 446 to 451): topology, broadcast and read
handlers plus the broadcast_ok acknowledgement module; every other type gets
the code-10 not-implemented error (Server::run_custom_handler lines 372 to
379).  Applied to a successfully parsed line; a line without msg_id is
dropped.  A second init is answered with the AlreadyInitialised error
without invoking any handler (lines 340 to 345).  The wrapper for
RequestHandler modules (lines 64 to 79) turns an Ok response into its
messages and an Err into the corresponding error reply.  The result is none
when a handler panics. -/
def processLine (st : SystemState) (now : Nat) (request : Message) :
    Option (SystemState × List Message) :=
  match request.body.msg_id with
  | none => some (st, [])
  | some requestId =>
    match request.body.message_type with
    | .init =>
      some (st,
        [AppError.toMessage .AlreadyInitialised st.node.node_id request.src requestId])
    | .topology =>
      match topologyHandle st.server st.node request with
      | .ok server1 =>
        let allocated := st.node.getAndIncrementMessageId
        some ({ st with server := server1, node := allocated.2 },
          [topologyOkMessage st.node.node_id request.src allocated.1 requestId])
      | .error e =>
        some (st, [e.toMessage st.node.node_id request.src requestId])
    | .broadcast =>
      match broadcastHandleRequest st.server st.pending st.node now request with
      | none => none
      | some (server1, pending1, node1, msgs) =>
        some ({ node := node1, server := server1, pending := pending1 }, msgs)
    | .read =>
      let allocated := st.node.getAndIncrementMessageId
      some ({ st with node := allocated.2 },
        [readOkMessage st.node.node_id request.src allocated.1 requestId st.server.messages])
    | .broadcast_ok =>
      match ackHandleRequest st.server request with
      | none => none
      | some (server1, msgs) => some ({ st with server := server1 }, msgs)
    | other =>
      some (st,
        [Message.error st.node.node_id request.src requestId 10
          ("Not yet implemented: " ++ messageTypeName other)])

/-- MAX_ATTEMPTS from src/src/broadcast.rs line 86. -/
def MAX_ATTEMPTS : Nat := 16

/-- BASELINE_SLEEP_MS from src/src/broadcast.rs line 87. -/
def BASELINE_SLEEP_MS : Nat := 2

/-- What the gossip daemon sweep does with one due pending entry
(src/src/broadcast.rs lines 128 to 157): crash models the expect panic on a
missing msg_id; retire means the entry is dropped (already acknowledged, or
its attempt count exceeds the cap); transmit carries the record pushed for
re-scheduling, whose attempt count the transmit site already incremented. -/
inductive SweepAction where
  | crash
  | retire
  | transmit (requeued : PendingBroadcast)
deriving DecidableEq

/-- The per-entry branch of the daemon loop, src/src/broadcast.rs lines 128
to 157: check the acknowledged set, then the attempt cap, else send the
message once and push the record with attempts + 1. -/
def processEntry (acked : List Nat) (e : PendingBroadcast) : SweepAction :=
  match e.broadcast.body.msg_id with
  | none => .crash
  | some mid =>
    if mid ∈ acked then .retire
    else if e.attempts > MAX_ATTEMPTS then .retire
    else .transmit { broadcast := e.broadcast, attempts := e.attempts + 1 }

/-- The re-insert step of the daemon loop, src/src/broadcast.rs lines 169 to
183: the sleep time is 2 to the power of the stored attempt count times
BASELINE_SLEEP_MS, and the record is rebuilt with its attempt count
incremented once more before insertion at now plus the sleep time. -/
def requeue (now : Nat) (e : PendingBroadcast) : Nat × PendingBroadcast :=
  (now + 2 ^ e.attempts * BASELINE_SLEEP_MS,
   { broadcast := e.broadcast, attempts := e.attempts + 1 })

/-- The transmission instants of a single pending entry that is never
acknowledged, assuming the daemon wakes exactly when the entry is due.  Each
step is the composition of processEntry (which transmits and increments the
attempt count once) and requeue (which increments it again and schedules at
now plus 2 to the power of the once-incremented count times
BASELINE_SLEEP_MS); the correspondence is proved below in
processEntry_requeue_step.  The fuel argument only bounds the recursion; the
lemma unackedTimesAux_fuel_stable shows that MAX_ATTEMPTS + 1 units of fuel
are never exhausted before the attempt cap stops the recursion. -/
def unackedTimesAux : Nat → Nat → Nat → List Nat
  | 0, _, _ => []
  | fuel + 1, attempts, now =>
    if attempts > MAX_ATTEMPTS then []
    else
      now :: unackedTimesAux fuel (attempts + 1 + 1)
        (now + 2 ^ (attempts + 1) * BASELINE_SLEEP_MS)

/-- The full transmission schedule of a never-acknowledged entry starting
with the given attempt count at the given instant. -/
def unackedTransmissionTimes (attempts now : Nat) : List Nat :=
  unackedTimesAux (MAX_ATTEMPTS + 1) attempts now

/-- A body with the given type, msg_id and in_reply_to and every other field
unset. -/
def plainBody (t : MessageType) (mid irt : Option Nat) : MessageBody :=
  { message_type := t
    msg_id := mid
    in_reply_to := irt
    node_id := none
    node_ids := none
    echo := none
    code := none
    text := none
    topology := none
    message := none
    messages := none }

/-- The node value Server::run starts from, src/src/server.rs lines 172 to
176. -/
def initialNode : Node :=
  { node_id := "Uninitialised Node", node_ids := [], next_message_id := 0 }

/-- An init request carrying a msg_id and node_ids but no node_id. -/
def reqInitMissingNodeId : Message :=
  { src := "c1", dest := "n1"
    body := { plainBody .init (some 1) none with node_ids := some ["n1"] } }

/-- An init request carrying both required fields. -/
def reqInitGood : Message :=
  { src := "c1", dest := "n1"
    body := { plainBody .init (some 1) none with
                node_id := some "n1", node_ids := some ["n1"] } }

/-- An initialized node used by the concrete broadcast scenarios. -/
def fanNode : Node :=
  { node_id := "n1", node_ids := ["n1", "n2", "n3"], next_message_id := 5 }

/-- A broadcast store with two neighbours and nothing seen yet. -/
def fanServer : BroadcastServer :=
  { neighbours := ["n2", "n3"], messages := [], acknowledged_broadcasts := [] }

/-- The same store after the payload 42 has been seen. -/
def seenServer : BroadcastServer :=
  { neighbours := ["n2", "n3"], messages := ["42"], acknowledged_broadcasts := [] }

/-- A broadcast request from client c1 with payload 42. -/
def reqBroadcast42 : Message :=
  { src := "c1", dest := "n1"
    body := { plainBody .broadcast (some 4) none with message := some "42" } }

/-- A broadcast_ok acknowledgement whose msg_id is 99 and whose in_reply_to
is 7. -/
def reqAck : Message :=
  { src := "n2", dest := "n1", body := plainBody .broadcast_ok (some 99) (some 7) }

/-- A node about to allocate msg_id 7. -/
def probeNode : Node :=
  { node_id := "n1", node_ids := ["n1", "n2"], next_message_id := 7 }

/-- A concrete outbound gossip broadcast message with msg_id 7. -/
def msg7 : Message :=
  (Broadcast.toMessage { node := "n2", message := "42" } probeNode).1

/-- A concrete system state for the Phase B scenarios. -/
def stateW : SystemState := { node := fanNode, server := fanServer, pending := [] }

/-- A second init request arriving in Phase B. -/
def reqInit2 : Message :=
  { src := "c1", dest := "n1"
    body := { plainBody .init (some 9) none with
                node_id := some "n1", node_ids := some ["n1", "n2", "n3"] } }

theorem mem_optField {α : Type} (kv : String × JsonValue) (name : String)
    (o : Option α) (f : α → JsonValue) :
    kv ∈ optField name o f ↔ ∃ x, o = some x ∧ kv = (name, f x) := by
  cases o <;> simp [optField]

theorem keys_optField {α : Type} (s name : String) (o : Option α) (f : α → JsonValue) :
    s ∈ (optField name o f).map Prod.fst ↔ s = name ∧ o.isSome := by
  cases o <;> simp [optField]

theorem pendingAt_entryPush (t t' : Nat) (e : PendingBroadcast) (m : PendingMap) :
    pendingAt t' (entryPush t e m)
      = if t' = t then pendingAt t m ++ [e] else pendingAt t' m := by
  induction m with
  | nil =>
    by_cases h : t' = t
    · subst h; simp [entryPush, pendingAt]
    · have h2 : ¬t = t' := fun hh => h hh.symm
      simp [entryPush, pendingAt, h, h2]
  | cons head rest ih =>
    obtain ⟨k, bucket⟩ := head
    by_cases hk : k = t
    · subst hk
      by_cases h : t' = k
      · subst h; simp [entryPush, pendingAt]
      · have h2 : ¬k = t' := fun hh => h hh.symm
        simp [entryPush, pendingAt, h, h2]
    · by_cases h : t' = t
      · subst h
        have h2 : ¬k = t' := hk
        simp [entryPush, pendingAt, hk, h2, ih]
      · by_cases hkt : k = t'
        · subst hkt
          simp [entryPush, pendingAt, hk, h, ih]
        · simp [entryPush, pendingAt, hk, h, hkt, ih]

theorem pendingAt_pushAll (now t : Nat) (msgs : List Message) (pending : PendingMap) :
    pendingAt t (pushAll now msgs pending)
      = if t = now then
          pendingAt now pending ++ msgs.map (fun m => { broadcast := m, attempts := 0 })
        else pendingAt t pending := by
  induction msgs generalizing pending with
  | nil => by_cases h : t = now <;> simp [pushAll, h]
  | cons m rest ih =>
    have step : pushAll now (m :: rest) pending
        = pushAll now rest (entryPush now { broadcast := m, attempts := 0 } pending) := rfl
    rw [step, ih]
    by_cases h : t = now
    · subst h
      simp [pendingAt_entryPush]
    · simp [h, pendingAt_entryPush]

theorem gossipMessages_node (nbs : List String) (payload : String) :
    ∀ node : Node, (gossipMessages nbs payload node).1
      = { node with next_message_id := node.next_message_id + nbs.length } := by
  induction nbs with
  | nil => intro node; cases node; simp [gossipMessages]
  | cons nb rest ih =>
    intro node
    cases node with
    | mk i ids next =>
      simp [gossipMessages, Broadcast.toMessage, Node.getAndIncrementMessageId, ih]
      omega

theorem gossipMessages_length (nbs : List String) (payload : String) :
    ∀ node : Node, (gossipMessages nbs payload node).2.length = nbs.length := by
  induction nbs with
  | nil => intro node; simp [gossipMessages]
  | cons nb rest ih =>
    intro node
    simp [gossipMessages, ih]

theorem gossipMessages_dests (nbs : List String) (payload : String) :
    ∀ node : Node, (gossipMessages nbs payload node).2.map (fun m => m.dest) = nbs := by
  induction nbs with
  | nil => intro node; simp [gossipMessages]
  | cons nb rest ih =>
    intro node
    simp [gossipMessages, Broadcast.toMessage, ih]

theorem gossipMessages_ids (nbs : List String) (payload : String) :
    ∀ node : Node, (gossipMessages nbs payload node).2.map (fun m => m.body.msg_id)
      = (List.range nbs.length).map (fun i => some (node.next_message_id + i)) := by
  induction nbs with
  | nil => intro node; simp [gossipMessages]
  | cons nb rest ih =>
    intro node
    rw [List.length_cons, List.range_succ_eq_map]
    simp only [gossipMessages, Broadcast.toMessage, Node.getAndIncrementMessageId,
      List.map_cons, List.map_map]
    rw [ih]
    simp only [List.cons.injEq]
    refine ⟨by simp, ?_⟩
    apply List.map_congr_left
    intro a _
    simp [Function.comp]
    omega

theorem gossipMessages_mem (nbs : List String) (payload : String) :
    ∀ node : Node, ∀ m ∈ (gossipMessages nbs payload node).2,
      m.body.message_type = MessageType.broadcast ∧ m.body.message = some payload
        ∧ m.src = node.node_id ∧ m.body.in_reply_to = none := by
  induction nbs with
  | nil => intro node m hm; simp [gossipMessages] at hm
  | cons nb rest ih =>
    intro node m hm
    simp only [gossipMessages, List.mem_cons] at hm
    rcases hm with hm | hm
    · subst hm
      exact ⟨rfl, rfl, rfl, rfl⟩
    · have := ih { node with next_message_id := node.next_message_id + 1 } m hm
      simpa using this

theorem unackedTimesAux_length_le (fuel : Nat) :
    ∀ a now, (unackedTimesAux fuel a now).length ≤ fuel := by
  induction fuel with
  | zero => intro a now; simp [unackedTimesAux]
  | succ f ih =>
    intro a now
    by_cases h : a > MAX_ATTEMPTS
    · simp [unackedTimesAux, h]
    · simp only [unackedTimesAux, if_neg h, List.length_cons]
      have := ih (a + 1 + 1) (now + 2 ^ (a + 1) * BASELINE_SLEEP_MS)
      omega

theorem unackedTimesAux_fuel_stable (fuel : Nat) :
    ∀ a now, MAX_ATTEMPTS + 1 ≤ a + 2 * fuel →
      unackedTimesAux (fuel + 1) a now = unackedTimesAux fuel a now := by
  induction fuel with
  | zero =>
    intro a now h
    have ha : a > MAX_ATTEMPTS := by omega
    simp [unackedTimesAux, ha]
  | succ f ih =>
    intro a now h
    by_cases ha : a > MAX_ATTEMPTS
    · simp [unackedTimesAux, ha]
    · conv_lhs => rw [unackedTimesAux]
      conv_rhs => rw [unackedTimesAux]
      rw [if_neg ha, if_neg ha,
        ih (a + 1 + 1) (now + 2 ^ (a + 1) * BASELINE_SLEEP_MS) (by omega)]

theorem unackedTimesAux_headD (fuel : Nat) (a now : Nat)
    (h : unackedTimesAux fuel a now ≠ []) :
    (unackedTimesAux fuel a now).getD 0 0 = now := by
  cases fuel with
  | zero => simp [unackedTimesAux] at h
  | succ f =>
    by_cases ha : a > MAX_ATTEMPTS
    · simp [unackedTimesAux, ha] at h
    · simp [unackedTimesAux, ha]

theorem unackedTimesAux_gap (fuel : Nat) :
    ∀ a now i, i + 1 < (unackedTimesAux fuel a now).length →
      (unackedTimesAux fuel a now).getD i 0 + 2 ^ (a + i) * BASELINE_SLEEP_MS
        ≤ (unackedTimesAux fuel a now).getD (i + 1) 0 := by
  induction fuel with
  | zero => intro a now i h; simp [unackedTimesAux] at h
  | succ f ih =>
    intro a now i h
    by_cases ha : a > MAX_ATTEMPTS
    · simp [unackedTimesAux, ha] at h
    · simp only [unackedTimesAux, if_neg ha, List.length_cons] at h
      cases i with
      | zero =>
        have hne : unackedTimesAux f (a + 1 + 1) (now + 2 ^ (a + 1) * BASELINE_SLEEP_MS) ≠ [] := by
          intro hempty
          rw [hempty] at h
          simp at h
        have hhead := unackedTimesAux_headD f (a + 1 + 1)
          (now + 2 ^ (a + 1) * BASELINE_SLEEP_MS) hne
        simp only [unackedTimesAux, if_neg ha, List.getD_cons_zero, List.getD_cons_succ]
        rw [hhead]
        have hpow : 2 ^ (a + 0) ≤ 2 ^ (a + 1) := Nat.pow_le_pow_right (by norm_num) (by omega)
        have : 2 ^ (a + 0) * BASELINE_SLEEP_MS ≤ 2 ^ (a + 1) * BASELINE_SLEEP_MS :=
          Nat.mul_le_mul_right _ hpow
        omega
      | succ j =>
        have hj : j + 1 < (unackedTimesAux f (a + 1 + 1)
            (now + 2 ^ (a + 1) * BASELINE_SLEEP_MS)).length := by omega
        have := ih (a + 1 + 1) (now + 2 ^ (a + 1) * BASELINE_SLEEP_MS) j hj
        simp only [unackedTimesAux, if_neg ha, List.getD_cons_succ]
        have hpow : 2 ^ (a + (j + 1)) ≤ 2 ^ (a + 1 + 1 + j) :=
          Nat.pow_le_pow_right (by norm_num) (by omega)
        have hmul : 2 ^ (a + (j + 1)) * BASELINE_SLEEP_MS
            ≤ 2 ^ (a + 1 + 1 + j) * BASELINE_SLEEP_MS :=
          Nat.mul_le_mul_right _ hpow
        omega

theorem processEntry_requeue_step (acked : List Nat) (e : PendingBroadcast) (now mid : Nat)
    (h1 : e.broadcast.body.msg_id = some mid) (h2 : mid ∉ acked)
    (h3 : e.attempts ≤ MAX_ATTEMPTS) :
    processEntry acked e = .transmit { broadcast := e.broadcast, attempts := e.attempts + 1 }
      ∧ requeue now { broadcast := e.broadcast, attempts := e.attempts + 1 }
        = (now + 2 ^ (e.attempts + 1) * BASELINE_SLEEP_MS,
           { broadcast := e.broadcast, attempts := e.attempts + 1 + 1 }) := by
  constructor
  · rw [processEntry, h1]
    simp only
    rw [if_neg h2, if_neg (by omega)]
  · simp [requeue]

/-- Claim C1.  In Phase A, an init whose body lacks node_id (or node_ids) is
claimed to get an error reply with code 12 while the loop neither sets the
node state nor advances; in fact Server::run unconditionally unwraps both
optional fields after recording the MissingField error, so the process
panics on such an input and the recorded error reply is unreachable.  Only
an init carrying both fields sets the state, emits init_ok with a fresh
msg_id (here 0) and in_reply_to 1, and advances to Phase B. -/
theorem init_missing_field_panics :
    phaseAStep initialNode reqInitMissingNodeId = PhaseAOutcome.crash
      ∧ phaseAStep initialNode reqInitGood
        = PhaseAOutcome.advance
            { node_id := "n1", node_ids := ["n1"], next_message_id := 1 }
            (Message.init_ok "n1" "c1" 0 1) := by
  constructor <;> rfl

/-- Claim C2.  For a due pending entry with attempt count 0 that is not
acknowledged, the claim says the daemon re-enqueues one entry with attempt
count 1 keyed at now plus 2 to the power 0 times 2 milliseconds; the code
instead increments the attempt count at the transmit site and again at the
re-insert site, and keys at now plus 2 to the power of the once-incremented
count times 2, so the re-enqueued entry carries attempts 2 at key now + 4. -/
theorem daemon_requeue_double_increment :
    processEntry [] { broadcast := msg7, attempts := 0 }
        = SweepAction.transmit { broadcast := msg7, attempts := 1 }
      ∧ requeue 1000 { broadcast := msg7, attempts := 1 }
          = (1004, { broadcast := msg7, attempts := 2 })
      ∧ 1000 + 2 ^ (0 : Nat) * BASELINE_SLEEP_MS = 1002
      ∧ (1004 : Nat) ≠ 1002 ∧ (2 : Nat) ≠ 0 + 1 := by
  refine ⟨by rfl, by rfl, by rfl, by decide, by decide⟩

/-- Claim C5.  For every incoming broadcast_ok carrying in_reply_to r, the
acknowledgement handler inserts r (not the msg_id) into the acknowledged
set and emits no outbound message. -/
theorem broadcast_ok_records_in_reply_to
    (server : BroadcastServer) (request : Message) (r : Nat)
    (h : request.body.in_reply_to = some r) :
    ackHandleRequest server request
      = some ({ server with
                  acknowledged_broadcasts := listInsert r server.acknowledged_broadcasts },
          []) := by
  simp [ackHandleRequest, h]

/-- Witness for C5: the acknowledgement with msg_id 99 and in_reply_to 7
stores 7, not 99, and sends nothing. -/
theorem broadcast_ok_records_in_reply_to_witness :
    ackHandleRequest fanServer reqAck
      = some ({ neighbours := ["n2", "n3"], messages := [],
                acknowledged_broadcasts := [7] }, []) := by
  have h := broadcast_ok_records_in_reply_to fanServer reqAck 7 rfl
  simpa [fanServer, listInsert] using h

/-- Claim C9.  The output serializer fallback: on an encoding failure the manual
code-13 error line is produced exactly when the failing message carries
in_reply_to; for a message without in_reply_to the expect panics (none), and
every gossip broadcast built by Broadcast::to_message has in_reply_to unset,
so an encoding failure on one panics instead of emitting the fallback. -/
theorem fallback_requires_in_reply_to :
    (∀ (m : Message) (r : Nat), m.body.in_reply_to = some r →
        emitOutput m none = some (fallbackErrorLine m.src m.dest r))
      ∧ (∀ m : Message, m.body.in_reply_to = none → emitOutput m none = none)
      ∧ (∀ (b : Broadcast) (node : Node),
          (Broadcast.toMessage b node).1.body.in_reply_to = none
            ∧ emitOutput (Broadcast.toMessage b node).1 none = none) := by
  refine ⟨?_, ?_, ?_⟩
  · intro m r h; simp [emitOutput, h]
  · intro m h; simp [emitOutput, h]
  · intro b node; exact ⟨rfl, rfl⟩

/-- Witness for C9: an error reply (which carries in_reply_to 1) gets the
fallback line on encoding failure, while the gossip message msg7 (whose
in_reply_to is unset) makes the serializer panic. -/
theorem fallback_requires_in_reply_to_witness :
    emitOutput (Message.error "n1" "c1" 1 22 "x") none
        = some (fallbackErrorLine "n1" "c1" 1)
      ∧ emitOutput msg7 none = none := by
  constructor
  · exact fallback_requires_in_reply_to.1 (Message.error "n1" "c1" 1 22 "x") 1 rfl
  · exact (fallback_requires_in_reply_to.2.2 { node := "n2", message := "42" } probeNode).2

/-- Claim C10.  The PartialEq implementation on MessageBody compares exactly
message_type, msg_id and in_reply_to; every payload field is ignored, so
two bodies differing only in a payload field (here echo) compare equal. -/
theorem body_equality_ignores_payloads :
    (∀ a b : MessageBody,
        MessageBody.eqImpl a b = true
          ↔ a.message_type = b.message_type ∧ a.msg_id = b.msg_id
              ∧ a.in_reply_to = b.in_reply_to)
      ∧ MessageBody.eqImpl
          { plainBody .echo_ok (some 3) (some 1) with echo := some "hi" }
          { plainBody .echo_ok (some 3) (some 1) with echo := some "bye" } = true := by
  constructor
  · intro a b
    simp [MessageBody.eqImpl, Bool.and_eq_true, decide_eq_true_eq, and_assoc]
  · decide

/-- Claim C4.  A broadcast request whose payload is already in the seen set gets
only a broadcast_ok reply: the store and pending map are returned unchanged
(only the msg_id counter advanced, because the acknowledgement allocates its
id before the membership test). -/
theorem broadcast_seen_payload_only_ack
    (server : BroadcastServer) (pending : PendingMap) (node : Node) (now : Nat)
    (request : Message) (rid : Nat) (payload : String)
    (hmid : request.body.msg_id = some rid)
    (hmsg : request.body.message = some payload)
    (hseen : payload ∈ server.messages) :
    broadcastHandleRequest server pending node now request
      = some (server, pending,
          { node with next_message_id := node.next_message_id + 1 },
          [broadcastOkMessage node.node_id request.src node.next_message_id rid]) := by
  simp [broadcastHandleRequest, hmid, hmsg, Node.getAndIncrementMessageId, hseen]

/-- Witness for C4: replaying payload 42 against a store that has seen it
returns exactly one broadcast_ok and leaves the store and pending map as
they were. -/
theorem broadcast_seen_payload_only_ack_witness :
    broadcastHandleRequest seenServer [] fanNode 100 reqBroadcast42
      = some (seenServer, [],
          { node_id := "n1", node_ids := ["n1", "n2", "n3"], next_message_id := 6 },
          [broadcastOkMessage "n1" "c1" 5 4]) := by
  exact broadcast_seen_payload_only_ack seenServer [] fanNode 100 reqBroadcast42 4 "42"
    rfl rfl (by decide)

/-- Claim C7.  After initialization, Phase B answers every init request that
carries a msg_id with the AlreadyInitialised error, code 22, whose
in_reply_to is that msg_id; no handler runs and the whole system state
(node identity, peers, seen and acknowledged stores, pending map) is
returned unchanged. -/
theorem second_init_code_22
    (st : SystemState) (now : Nat) (request : Message) (i : Nat)
    (htype : request.body.message_type = MessageType.init)
    (hmid : request.body.msg_id = some i) :
    processLine st now request
        = some (st,
            [Message.error st.node.node_id request.src i 22 "Node was already initialised"])
      ∧ (Message.error st.node.node_id request.src i 22
          "Node was already initialised").body.code = some 22
      ∧ (Message.error st.node.node_id request.src i 22
          "Node was already initialised").body.in_reply_to = some i
      ∧ (Message.error st.node.node_id request.src i 22
          "Node was already initialised").body.message_type = MessageType.error := by
  refine ⟨?_, rfl, rfl, rfl⟩
  simp [processLine, hmid, htype, AppError.toMessage]

/-- Witness for C7: a second init with msg_id 9 against an initialized state
yields the code-22 error and the state is untouched. -/
theorem second_init_code_22_witness :
    processLine stateW 100 reqInit2
      = some (stateW, [Message.error "n1" "c1" 9 22 "Node was already initialised"]) := by
  exact (second_init_code_22 stateW 100 reqInit2 9 rfl rfl).1

/-- Claim C3.  A broadcast request with a payload not yet seen: the payload is
inserted into the seen set, one outbound broadcast message is built per
neighbour other than the caller, each carrying a freshly allocated msg_id
(consecutive and distinct, starting right after the acknowledgement's id),
each is queued in the pending map at the current instant with attempts 0,
and the only message sent back on the channel is the broadcast_ok to the
caller. -/
theorem broadcast_new_payload_fanout
    (server : BroadcastServer) (pending : PendingMap) (node : Node) (now : Nat)
    (request : Message) (rid : Nat) (payload : String)
    (hmid : request.body.msg_id = some rid)
    (hmsg : request.body.message = some payload)
    (hnew : payload ∉ server.messages) :
    ∃ node2 newMsgs,
      broadcastHandleRequest server pending node now request
          = some ({ server with messages := payload :: server.messages },
              pushAll now newMsgs pending, node2,
              [broadcastOkMessage node.node_id request.src node.next_message_id rid])
        ∧ newMsgs.map (fun m => m.dest)
            = server.neighbours.filter (fun n => n ≠ request.src)
        ∧ newMsgs.map (fun m => m.body.msg_id)
            = (List.range newMsgs.length).map (fun i => some (node.next_message_id + 1 + i))
        ∧ (∀ m ∈ newMsgs,
            m.body.message_type = MessageType.broadcast ∧ m.body.message = some payload
              ∧ m.src = node.node_id ∧ m.body.in_reply_to = none)
        ∧ (∀ t, pendingAt t (pushAll now newMsgs pending)
            = if t = now then
                pendingAt now pending
                  ++ newMsgs.map (fun m => { broadcast := m, attempts := 0 })
              else pendingAt t pending) := by
  refine ⟨(gossipMessages (server.neighbours.filter (fun n => n ≠ request.src)) payload
      { node with next_message_id := node.next_message_id + 1 }).1,
    (gossipMessages (server.neighbours.filter (fun n => n ≠ request.src)) payload
      { node with next_message_id := node.next_message_id + 1 }).2,
    ?_, ?_, ?_, ?_, ?_⟩
  · simp [broadcastHandleRequest, hmid, hmsg, Node.getAndIncrementMessageId, listInsert, hnew]
  · exact gossipMessages_dests _ payload _
  · rw [gossipMessages_length, gossipMessages_ids]
  · intro m hm
    have h := gossipMessages_mem _ payload _ m hm
    simpa using h
  · intro t
    exact pendingAt_pushAll now t _ pending

/-- Witness for C3: the concrete fan-out of payload 42 from n1 with
neighbours n2 and n3 and caller c1. -/
theorem broadcast_new_payload_fanout_witness :
    ∃ node2 newMsgs,
      broadcastHandleRequest fanServer [] fanNode 100 reqBroadcast42
          = some ({ fanServer with messages := "42" :: fanServer.messages },
              pushAll 100 newMsgs [], node2,
              [broadcastOkMessage fanNode.node_id reqBroadcast42.src
                fanNode.next_message_id 4])
        ∧ newMsgs.map (fun m => m.dest)
            = fanServer.neighbours.filter (fun n => n ≠ reqBroadcast42.src)
        ∧ newMsgs.map (fun m => m.body.msg_id)
            = (List.range newMsgs.length).map
                (fun i => some (fanNode.next_message_id + 1 + i))
        ∧ (∀ m ∈ newMsgs,
            m.body.message_type = MessageType.broadcast ∧ m.body.message = some "42"
              ∧ m.src = fanNode.node_id ∧ m.body.in_reply_to = none)
        ∧ (∀ t, pendingAt t (pushAll 100 newMsgs [])
            = if t = 100 then
                pendingAt 100 []
                  ++ newMsgs.map (fun m => { broadcast := m, attempts := 0 })
              else pendingAt t []) := by
  exact broadcast_new_payload_fanout fanServer [] fanNode 100 reqBroadcast42 4 "42"
    rfl rfl (by decide)

/-- Claim C6.  A never-acknowledged outbound broadcast is transmitted at most 17
times, the gap before the transmission following the one at index i is at
least 2 to the power i times BASELINE_SLEEP_MS milliseconds (so at least
2, 4, 8, 16, and so on), and an entry whose attempt count exceeds
MAX_ATTEMPTS (16) is retired by the sweep without transmission. -/
theorem gossip_retry_cap_and_backoff :
    (∀ now, (unackedTransmissionTimes 0 now).length ≤ 17)
      ∧ (∀ now i, i + 1 < (unackedTransmissionTimes 0 now).length →
          (unackedTransmissionTimes 0 now).getD i 0 + 2 ^ i * BASELINE_SLEEP_MS
            ≤ (unackedTransmissionTimes 0 now).getD (i + 1) 0)
      ∧ (∀ (acked : List Nat) (e : PendingBroadcast) (mid : Nat),
          e.broadcast.body.msg_id = some mid → e.attempts > MAX_ATTEMPTS →
            processEntry acked e = SweepAction.retire) := by
  refine ⟨?_, ?_, ?_⟩
  · intro now
    have h := unackedTimesAux_length_le (MAX_ATTEMPTS + 1) 0 now
    simpa [unackedTransmissionTimes, MAX_ATTEMPTS] using h
  · intro now i h
    simp only [unackedTransmissionTimes] at h ⊢
    have hg := unackedTimesAux_gap (MAX_ATTEMPTS + 1) 0 now i h
    simpa using hg
  · intro acked e mid h1 h2
    rw [processEntry, h1]
    simp only
    by_cases hm : mid ∈ acked
    · rw [if_pos hm]
    · rw [if_neg hm, if_pos h2]

/-- Witness for C6: the schedule starting at 1000 has at most 17 entries and
its first gap is at least 2 milliseconds; an entry with attempt count 17 is
retired. -/
theorem gossip_retry_cap_and_backoff_witness :
    (unackedTransmissionTimes 0 1000).length ≤ 17
      ∧ (unackedTransmissionTimes 0 1000).getD 0 0 + 2 ^ (0 : Nat) * BASELINE_SLEEP_MS
          ≤ (unackedTransmissionTimes 0 1000).getD 1 0
      ∧ processEntry [] { broadcast := msg7, attempts := 17 } = SweepAction.retire := by
  exact ⟨gossip_retry_cap_and_backoff.1 1000,
    gossip_retry_cap_and_backoff.2.1 1000 0 (by decide),
    gossip_retry_cap_and_backoff.2.2 [] { broadcast := msg7, attempts := 17 } 7 rfl
      (by decide)⟩

/-- Any field that serializes to the JSON value null on the wire can only be
the opaque message payload, and only when that payload is the raw JSON
document null: every other field encoding (numbers, strings, string lists,
the topology map, the type tag) is never null. -/
theorem serialize_wireNull_source (b : MessageBody) :
    ∀ kv ∈ serializeMessageBody b, kv.2.wireNull = true →
      kv.1 = "message" ∧ b.message = some "null" := by
  intro kv hkv hnull
  simp only [serializeMessageBody, List.mem_append, List.mem_singleton,
    mem_optField] at hkv
  rcases hkv with ((((((((((hkv | hkv) | hkv) | hkv) | hkv) | hkv) | hkv) | hkv)
    | hkv) | hkv) | hkv)
  · subst hkv; simp [JsonValue.wireNull] at hnull
  · obtain ⟨x, hx, hkv⟩ := hkv; subst hkv; simp [JsonValue.wireNull] at hnull
  · obtain ⟨x, hx, hkv⟩ := hkv; subst hkv; simp [JsonValue.wireNull] at hnull
  · obtain ⟨x, hx, hkv⟩ := hkv; subst hkv; simp [JsonValue.wireNull] at hnull
  · obtain ⟨x, hx, hkv⟩ := hkv; subst hkv; simp [JsonValue.wireNull] at hnull
  · obtain ⟨x, hx, hkv⟩ := hkv; subst hkv; simp [JsonValue.wireNull] at hnull
  · obtain ⟨x, hx, hkv⟩ := hkv; subst hkv; simp [JsonValue.wireNull] at hnull
  · obtain ⟨x, hx, hkv⟩ := hkv; subst hkv; simp [JsonValue.wireNull] at hnull
  · obtain ⟨x, hx, hkv⟩ := hkv; subst hkv; simp [JsonValue.wireNull] at hnull
  · obtain ⟨x, hx, hkv⟩ := hkv
    subst hkv
    simp only [JsonValue.wireNull, decide_eq_true_eq] at hnull
    exact ⟨rfl, by rw [hx, hnull]⟩
  · obtain ⟨x, hx, hkv⟩ := hkv; subst hkv; simp [JsonValue.wireNull] at hnull

/-- Claim C8.  For every outbound message the node serializes, every unset
optional body field is absent from the serialized JSON object and no emitted
field carries the value null.  In order: unset fields are absent for every
body; no serialized field of a body satisfying payloadsNotNull (the
invariant the parse layer guarantees for everything it delivers) is null on
the wire; every outbound constructor of the node (init_ok, error, the
AppError replies, broadcast_ok, topology_ok, read_ok over a null-free seen
set, and the gossip Broadcast::to_message over a null-free payload) produces
a body satisfying the invariant; and the broadcast handler preserves it,
both for the messages it sends and for the seen set feeding read_ok. -/
theorem no_outbound_null_fields :
    (∀ b : MessageBody,
        (b.msg_id = none → "msg_id" ∉ serializedKeys b)
          ∧ (b.in_reply_to = none → "in_reply_to" ∉ serializedKeys b)
          ∧ (b.node_id = none → "node_id" ∉ serializedKeys b)
          ∧ (b.node_ids = none → "node_ids" ∉ serializedKeys b)
          ∧ (b.echo = none → "echo" ∉ serializedKeys b)
          ∧ (b.code = none → "code" ∉ serializedKeys b)
          ∧ (b.text = none → "text" ∉ serializedKeys b)
          ∧ (b.topology = none → "topology" ∉ serializedKeys b)
          ∧ (b.message = none → "message" ∉ serializedKeys b)
          ∧ (b.messages = none → "messages" ∉ serializedKeys b))
      ∧ (∀ b : MessageBody, payloadsNotNull b →
          ∀ kv ∈ serializeMessageBody b, kv.2.wireNull = false)
      ∧ (∀ source destination mid irt,
          payloadsNotNull (Message.init_ok source destination mid irt).body)
      ∧ (∀ source destination irt c t,
          payloadsNotNull (Message.error source destination irt c t).body)
      ∧ (∀ (e : AppError) source destination irt,
          payloadsNotNull (AppError.toMessage e source destination irt).body)
      ∧ (∀ source destination mid irt,
          payloadsNotNull (broadcastOkMessage source destination mid irt).body)
      ∧ (∀ source destination mid irt,
          payloadsNotNull (topologyOkMessage source destination mid irt).body)
      ∧ (∀ source destination mid irt msgs, (∀ s ∈ msgs, s ≠ "null") →
          payloadsNotNull (readOkMessage source destination mid irt msgs).body)
      ∧ (∀ (bc : Broadcast) (node : Node), bc.message ≠ "null" →
          payloadsNotNull (Broadcast.toMessage bc node).1.body)
      ∧ (∀ server pending node now request result,
          (∀ s, request.body.message = some s → s ≠ "null") →
          (∀ s ∈ server.messages, s ≠ "null") →
          broadcastHandleRequest server pending node now request = some result →
          (∀ m ∈ result.2.2.2, payloadsNotNull m.body)
            ∧ (∀ s ∈ result.1.messages, s ≠ "null")) := by
  refine ⟨?_, ?_, ?_, ?_, ?_, ?_, ?_, ?_, ?_, ?_⟩
  · intro b
    refine ⟨?_, ?_, ?_, ?_, ?_, ?_, ?_, ?_, ?_, ?_⟩ <;> intro h <;>
      simp [serializedKeys, serializeMessageBody, mem_optField, h]
  · intro b hp kv hkv
    cases hv : kv.2.wireNull with
    | false => rfl
    | true =>
      obtain ⟨hname, hmsg⟩ := serialize_wireNull_source b kv hkv hv
      exact absurd rfl (hp.1 "null" hmsg)
  · intro source destination mid irt
    exact ⟨fun s h => (nomatch h), fun xs h => (nomatch h)⟩
  · intro source destination irt c t
    exact ⟨fun s h => (nomatch h), fun xs h => (nomatch h)⟩
  · intro e source destination irt
    cases e <;> exact ⟨fun s h => (nomatch h), fun xs h => (nomatch h)⟩
  · intro source destination mid irt
    exact ⟨fun s h => (nomatch h), fun xs h => (nomatch h)⟩
  · intro source destination mid irt
    exact ⟨fun s h => (nomatch h), fun xs h => (nomatch h)⟩
  · intro source destination mid irt msgs hmsgs
    refine ⟨fun s h => (nomatch h), ?_⟩
    intro xs hxs s hs
    have hx := Option.some.inj hxs
    subst hx
    exact hmsgs s hs
  · intro bc node hneq
    refine ⟨?_, fun xs h => (nomatch h)⟩
    intro s h
    have hx := Option.some.inj h
    subst hx
    exact hneq
  · intro server pending node now request result h1 h2 hres
    cases hmid : request.body.msg_id with
    | none => simp [broadcastHandleRequest, hmid] at hres
    | some rid =>
      cases hmsg : request.body.message with
      | none =>
        simp only [broadcastHandleRequest, hmid, hmsg, Option.some.injEq] at hres
        subst hres
        refine ⟨?_, h2⟩
        intro m hm
        simp only [List.mem_singleton] at hm
        subst hm
        exact ⟨fun s h => (nomatch h), fun xs h => (nomatch h)⟩
      | some payload =>
        by_cases hseen : payload ∈ server.messages
        · simp only [broadcastHandleRequest, hmid, hmsg, Node.getAndIncrementMessageId,
            if_pos hseen, Option.some.injEq] at hres
          subst hres
          refine ⟨?_, h2⟩
          intro m hm
          simp only [List.mem_singleton] at hm
          subst hm
          exact ⟨fun s h => (nomatch h), fun xs h => (nomatch h)⟩
        · simp only [broadcastHandleRequest, hmid, hmsg, Node.getAndIncrementMessageId,
            if_neg hseen, Option.some.injEq] at hres
          subst hres
          constructor
          · intro m hm
            simp only [List.mem_singleton] at hm
            subst hm
            exact ⟨fun s h => (nomatch h), fun xs h => (nomatch h)⟩
          · intro s hs
            simp only [listInsert, if_neg hseen, List.mem_cons] at hs
            rcases hs with rfl | hs
            · exact h1 s hmsg
            · exact h2 s hs

/-- Witness for C8: the empty read body emits no msg_id field; the gossip
message for payload 42 satisfies the payload invariant and none of its
serialized fields is null on the wire. -/
theorem no_outbound_null_fields_witness :
    "msg_id" ∉ serializedKeys (plainBody .read none none)
      ∧ payloadsNotNull (Broadcast.toMessage { node := "n2", message := "42" } probeNode).1.body
      ∧ (∀ kv ∈ serializeMessageBody
            (Broadcast.toMessage { node := "n2", message := "42" } probeNode).1.body,
          kv.2.wireNull = false) := by
  have hinv := no_outbound_null_fields.2.2.2.2.2.2.2.2.1
    { node := "n2", message := "42" } probeNode (by decide)
  exact ⟨(no_outbound_null_fields.1 (plainBody .read none none)).1 rfl, hinv,
    no_outbound_null_fields.2.1 _ hinv⟩

end Maelstrom
